import Mathlib

/-
Verification development for the bot2door backend (src/backend/app.py).

The program is a single-process HTTP backend holding one global mutable
record `delivery_state` with fields `status`, `otp` and `cancelled`.
Four session endpoints (`start_delivery`, `check_status`, `speak_otp`,
`cancel_delivery`) and one background thread body
(`simulate_homeowner_response`) read and write that record; a fifth
endpoint (`understand_speech`) talks to an external extraction service
and never touches the record.

The embedding below translates each handler into a pure function from the
session record to a (response, new record) pair, and wraps them in a
labelled transition system whose steps are the handler invocations plus
the wake-up of a spawned notifier thread.
-/

namespace Bot2Door

/-- The four status strings stored in `delivery_state["status"]`:
"idle", "waiting_for_otp", "otp_ready", "completed". -/
inductive Status where
  | idle
  | waiting_for_otp
  | otp_ready
  | completed
deriving DecidableEq, Repr

/-- The status strings as exposed verbatim by `check_status`. -/
def statusString : Status → String
  | .idle => "idle"
  | .waiting_for_otp => "waiting_for_otp"
  | .otp_ready => "otp_ready"
  | .completed => "completed"

/-- The global `delivery_state` dict: `status`, `otp` (None or a string),
`cancelled` (a boolean). -/
structure DeliveryState where
  status : Status
  otp : Option String
  cancelled : Bool
deriving DecidableEq, Repr

/-- The initial value of `delivery_state` at process start:
status "idle", otp None, cancelled False. -/
def delivery_state : DeliveryState :=
  { status := .idle, otp := none, cancelled := false }

/-- An HTTP response: status code plus the interesting payload string
(the message, the status string, the spoken OTP, or the extracted JSON). -/
structure Response where
  code : Nat
  body : String
deriving DecidableEq, Repr

/-- A JSON object body, as the list of its key/value pairs (the handlers
only ever probe string-valued keys). `none` models an absent body. -/
abbrev Body := List (String × String)

/-- `start_delivery` (POST /start-delivery): returns 400 if the body is
falsy or lacks the `company` or `info` key; if `status` is idle or
completed, resets the record to waiting_for_otp with otp None and
cancelled False and returns 200 (the caller spawns the notifier thread
exactly in this branch); otherwise returns 409 and changes nothing. -/
def start_delivery (data : Option Body) (s : DeliveryState) :
    Response × DeliveryState :=
  if data = none ∨ data = some [] ∨ (data.getD []).lookup "company" = none ∨
      (data.getD []).lookup "info" = none then
    (⟨400, "Missing company or info."⟩, s)
  else if s.status = .idle ∨ s.status = .completed then
    (⟨200, "Homeowner notification process started."⟩,
     { status := .waiting_for_otp, otp := none, cancelled := false })
  else
    (⟨409, "A delivery is already in progress."⟩, s)

/-- `check_status` (GET /check-status): returns the current status string,
no state change. -/
def check_status (s : DeliveryState) : Response × DeliveryState :=
  (⟨200, statusString s.status⟩, s)

/-- The spoken-output transform in `speak_otp`:
`"... ".join(list(otp)) + "..."`. -/
def spokenFormat (otp : String) : String :=
  String.intercalate "... " (otp.toList.map (fun c => String.mk [c])) ++ "..."

/-- `speak_otp` (GET /speak-otp): if `status == "otp_ready"` and `otp` is
not None, returns the spoken OTP with 200 and sets status to "completed"
(the `otp` field itself is left in place — the source never clears it);
otherwise returns 404 and changes nothing. -/
def speak_otp (s : DeliveryState) : Response × DeliveryState :=
  match s.status, s.otp with
  | .otp_ready, some otp =>
      (⟨200, spokenFormat otp⟩, { s with status := .completed })
  | _, _ =>
      (⟨404, "OTP is not ready or has already been provided."⟩, s)

/-- `cancel_delivery` (POST /cancel-delivery): if status is
"waiting_for_otp", sets status to "idle" and cancelled to True and
returns 200; otherwise returns 400 and changes nothing. -/
def cancel_delivery (s : DeliveryState) : Response × DeliveryState :=
  if s.status = .waiting_for_otp then
    (⟨200, "Delivery cancelled."⟩,
     { s with status := .idle, cancelled := true })
  else
    (⟨400, "No active delivery to cancel."⟩, s)

/-- The body of `simulate_homeowner_response` after its `time.sleep(5)`
(the sleep and the prints are I/O and carry no state): if the global
`cancelled` flag is set, return without effect; otherwise write
`status = "otp_ready"` and `otp = str(v)` where `v` is the
`random.randint(1000, 9999)` draw, passed here as a parameter. -/
def simulate_homeowner_response (v : Nat) (s : DeliveryState) :
    DeliveryState :=
  if s.cancelled then s
  else { s with status := .otp_ready, otp := some (toString v) }

/-- The notifier body's cancellation check in isolation: in the source,
`if delivery_state.get("cancelled", False): return` executes as its own
statement, with no lock held, before the writes. It reads the flag and
decides whether the thread proceeds. -/
def notifierCheck (s : DeliveryState) : Bool := s.cancelled

/-- The notifier body's mutation in isolation: the two assignments
`delivery_state["status"] = "otp_ready"` and `delivery_state["otp"] = otp`
that the source runs after (and separately from) the check. -/
def notifierWrite (v : Nat) (s : DeliveryState) : DeliveryState :=
  { s with status := .otp_ready, otp := some (toString v) }

/-- `understand_speech` (POST /understand-speech). The external pieces are
parameters: `apiKey` is the `GEMINI_API_KEY` environment variable,
`aiResponse` is the outcome of the `generate_content` call (an exception
or the response text), `jsonValid` is `json.loads` succeeding on a string.
Branches: 500 if the key is unset or empty; 400 if the body is falsy or
lacks `raw_text`; on an AI exception or invalid JSON after cleanup, 500;
otherwise 200 with the cleaned JSON text. No branch touches the session
record. -/
def understand_speech (apiKey : Option String) (data : Option Body)
    (aiResponse : Except String String) (jsonValid : String → Bool)
    (s : DeliveryState) : Response × DeliveryState :=
  if apiKey = none ∨ apiKey = some "" then
    (⟨500, "Backend AI not configured."⟩, s)
  else if data = none ∨ data = some [] ∨
      (data.getD []).lookup "raw_text" = none then
    (⟨400, "Missing raw_text."⟩, s)
  else
    match aiResponse with
    | .error e => (⟨500, "AI processing failed: " ++ e⟩, s)
    | .ok text =>
        let json_text := (text.trim.replace "```json" "").replace "```" ""
        if jsonValid json_text then
          (⟨200, json_text⟩, s)
        else
          (⟨500, "AI processing failed: Invalid JSON from AI"⟩, s)

/-! ## The system as a labelled transition system

A system configuration is the session record plus ghost bookkeeping for
the notifier threads `start_delivery` spawns: `pending` lists the
generation numbers of spawned-but-not-yet-woken threads in spawn order
(threads all sleep the same five seconds, so they wake in spawn order),
and `gen` counts accepted starts. The generation numbers are pure ghost
labels: the source's notifier carries no identity, and the `fire` step's
effect ignores them. -/

/-- A system configuration: the shared record plus ghost thread
bookkeeping. -/
structure Sys where
  st : DeliveryState
  pending : List Nat
  gen : Nat
deriving DecidableEq, Repr

/-- The configuration at process start: fresh record, no threads. -/
def initSys : Sys := { st := delivery_state, pending := [], gen := 0 }

/-- One atomic step of the system: an endpoint invocation, or the wake-up
of the oldest pending notifier thread with random draw `v`. -/
inductive Act where
  | start (data : Option Body)
  | check
  | speak
  | cancel
  | fire (v : Nat)
deriving DecidableEq, Repr

/-- Effect of an action on a configuration. A successful `start` pushes a
new notifier thread; `fire` pops the oldest pending thread and runs
`simulate_homeowner_response` (whose effect does not depend on which
thread woke). -/
def applyAct (a : Act) (σ : Sys) : Sys :=
  match a with
  | .start data =>
      if (start_delivery data σ.st).1.code = 200 then
        { st := (start_delivery data σ.st).2,
          pending := σ.pending ++ [σ.gen + 1], gen := σ.gen + 1 }
      else
        { σ with st := (start_delivery data σ.st).2 }
  | .check => { σ with st := (check_status σ.st).2 }
  | .speak => { σ with st := (speak_otp σ.st).2 }
  | .cancel => { σ with st := (cancel_delivery σ.st).2 }
  | .fire v =>
      match σ.pending with
      | [] => σ
      | _ :: rest =>
          { σ with st := simulate_homeowner_response v σ.st, pending := rest }

/-- Enabledness: endpoint calls are always possible; a notifier can wake
only if one is pending, and its draw is a genuine `randint(1000, 9999)`
result. -/
def canAct (a : Act) (σ : Sys) : Prop :=
  match a with
  | .fire v => σ.pending ≠ [] ∧ 1000 ≤ v ∧ v ≤ 9999
  | _ => True

instance (a : Act) (σ : Sys) : Decidable (canAct a σ) := by
  cases a <;> simp only [canAct] <;> infer_instance

/-- Configurations reachable from process start by any interleaving of
endpoint calls and notifier wake-ups. -/
inductive Reachable : Sys → Prop where
  | init : Reachable initSys
  | step (a : Act) (σ : Sys) : Reachable σ → canAct a σ →
      Reachable (applyAct a σ)

/-- Run a list of actions from a configuration, skipping disabled ones. -/
def runFrom (σ : Sys) (as : List Act) : Sys :=
  as.foldl (fun σ a => if canAct a σ then applyAct a σ else σ) σ

/-- Run a list of actions from process start. -/
def runTrace (as : List Act) : Sys := runFrom initSys as

/-- A well-formed request body carrying both required fields. -/
def okBody : Option Body := some [("company", "Acme"), ("info", "a box")]

/-- A request body validated by `start_delivery`: present, non-falsy, and
carrying both the `company` and the `info` key. -/
def fieldsPresent (data : Option Body) : Prop :=
  data ≠ none ∧ data ≠ some [] ∧ (data.getD []).lookup "company" ≠ none ∧
    (data.getD []).lookup "info" ≠ none

instance (data : Option Body) : Decidable (fieldsPresent data) := by
  unfold fieldsPresent
  infer_instance

/-- Actions other than Start, Cancel and Retrieve: status polls and
notifier wake-ups. -/
def benign (a : Act) : Prop :=
  match a with
  | .check => True
  | .fire _ => True
  | _ => False

instance (a : Act) : Decidable (benign a) := by
  cases a <;> simp only [benign] <;> infer_instance

/-- Written from the spec's words, for comparison with `spokenFormat`:
each digit of the code in order, separated by the pause marker, with a
trailing pause marker. -/
def spokenSpec : List Char → String
  | [] => "..."
  | [c] => String.mk [c] ++ "..."
  | c :: rest => String.mk [c] ++ "... " ++ spokenSpec rest

/-- Written from the spec's words: the transition edges of the §4.3 state
machine (`Start`, `NotifierSuccess`, `Cancel`, `Retrieve`, `Start`). -/
def specEdges : List (Status × Status) :=
  [(.idle, .waiting_for_otp), (.waiting_for_otp, .otp_ready),
   (.waiting_for_otp, .idle), (.otp_ready, .completed),
   (.completed, .waiting_for_otp)]

/-- The edges the code actually realizes: the spec's edges plus the
stale-notifier resolution edge completed → otp_ready. -/
def codeEdges : List (Status × Status) :=
  specEdges ++ [(.completed, .otp_ready)]

/-! ## Concrete scenario configurations

Each is the value of a short concrete trace (checked by `decide` in the
reachability lemmas below), named for use in the scenario theorems. -/

/-- After `Start(okBody)`: one notifier thread of generation 1 pending. -/
def sysWaiting : Sys :=
  { st := { status := .waiting_for_otp, otp := none, cancelled := false },
    pending := [1], gen := 1 }

/-- After `Start; fire 1234`: the OTP is ready. -/
def sysReady : Sys :=
  { st := { status := .otp_ready, otp := some "1234", cancelled := false },
    pending := [], gen := 1 }

/-- After `Start; fire 1234; Retrieve`: session completed, `otp` still
set because `speak_otp` never clears it. -/
def sysCompleted : Sys :=
  { st := { status := .completed, otp := some "1234", cancelled := false },
    pending := [], gen := 1 }

/-- After `Start; Cancel; Start`: the current session is generation 2,
but generation 1's notifier thread is still pending (and the second
`start_delivery` cleared the cancellation flag it would have checked). -/
def sysTwoPending : Sys :=
  { st := { status := .waiting_for_otp, otp := none, cancelled := false },
    pending := [1, 2], gen := 2 }

/-- After `Start; Cancel; Start; fire 1234`: generation 1's stale
notifier resolved generation 2's session; generation 2's own notifier is
still pending. -/
def sysStaleReady : Sys :=
  { st := { status := .otp_ready, otp := some "1234", cancelled := false },
    pending := [2], gen := 2 }

/-- After `Start; Cancel; Start; fire 1234; Retrieve`: completed, with
generation 2's notifier still pending. -/
def sysStale : Sys :=
  { st := { status := .completed, otp := some "1234", cancelled := false },
    pending := [2], gen := 2 }

/-! ## Basic lemmas -/

theorem reachable_runFrom (as : List Act) (σ : Sys) (h : Reachable σ) :
    Reachable (runFrom σ as) := by
  induction as generalizing σ with
  | nil => exact h
  | cons a as ih =>
      simp only [runFrom, List.foldl_cons]
      by_cases hc : canAct a σ
      · simpa [hc] using ih _ (Reachable.step a σ h hc)
      · simpa [hc] using ih _ h

theorem reachable_runTrace (as : List Act) : Reachable (runTrace as) :=
  reachable_runFrom as initSys Reachable.init

theorem reachable_sysWaiting : Reachable sysWaiting := by
  have h := reachable_runTrace [.start okBody]
  have e : runTrace [.start okBody] = sysWaiting := by decide
  rw [e] at h
  exact h

theorem reachable_sysReady : Reachable sysReady := by
  have h := reachable_runTrace [.start okBody, .fire 1234]
  have e : runTrace [.start okBody, .fire 1234] = sysReady := by decide
  rw [e] at h
  exact h

theorem reachable_sysCompleted : Reachable sysCompleted := by
  have h := reachable_runTrace [.start okBody, .fire 1234, .speak]
  have e : runTrace [.start okBody, .fire 1234, .speak] = sysCompleted := by
    decide
  rw [e] at h
  exact h

theorem reachable_sysTwoPending : Reachable sysTwoPending := by
  have h := reachable_runTrace [.start okBody, .cancel, .start okBody]
  have e : runTrace [.start okBody, .cancel, .start okBody] = sysTwoPending := by
    decide
  rw [e] at h
  exact h

theorem reachable_sysStaleReady : Reachable sysStaleReady := by
  have h := reachable_runTrace [.start okBody, .cancel, .start okBody, .fire 1234]
  have e : runTrace [.start okBody, .cancel, .start okBody, .fire 1234] =
      sysStaleReady := by decide
  rw [e] at h
  exact h

theorem reachable_sysStale : Reachable sysStale := by
  have h := reachable_runTrace
    [.start okBody, .cancel, .start okBody, .fire 1234, .speak]
  have e : runTrace [.start okBody, .cancel, .start okBody, .fire 1234, .speak] =
      sysStale := by decide
  rw [e] at h
  exact h

/-! ## The spoken-output transform agrees with the spec's rendering -/

theorem intercalateGo_spoken (l : List Char) (acc : String) :
    String.intercalate.go acc "... " (l.map fun c => String.mk [c]) ++ "..." =
      acc ++ (match l with
              | [] => ("..." : String)
              | _ => "... " ++ spokenSpec l) := by
  induction l generalizing acc with
  | nil => simp [String.intercalate.go]
  | cons c rest ih =>
      cases rest with
      | nil =>
          simp only [List.map, String.intercalate.go, spokenSpec]
          apply String.ext
          simp
      | cons c2 r2 =>
          simp only [List.map, String.intercalate.go] at *
          rw [ih]
          simp only [spokenSpec]
          apply String.ext
          simp

/-- The source's `"... ".join(list(otp)) + "..."` renders every digit of
the code in order, pause-separated, with a trailing pause. -/
theorem spokenFormat_eq_spokenSpec (l : List Char) :
    spokenFormat ⟨l⟩ = spokenSpec l := by
  cases l with
  | nil => simp [spokenFormat, String.intercalate, spokenSpec]
  | cons c rest =>
      simp only [spokenFormat, String.toList, String.intercalate, List.map]
      rw [intercalateGo_spoken]
      cases rest with
      | nil => simp only [spokenSpec]
      | cons c2 r2 =>
          simp only [spokenSpec]
          apply String.ext
          simp

/-! ## Case-analysis lemmas for the handlers -/

/-- `start_delivery` either accepts (200, full reset, from a startable
status) or leaves the record unchanged. -/
theorem start_delivery_spec (data : Option Body) (s : DeliveryState) :
    ((start_delivery data s).1.code = 200 ∧
      (start_delivery data s).2 =
        { status := .waiting_for_otp, otp := none, cancelled := false } ∧
      (s.status = .idle ∨ s.status = .completed)) ∨
    ((start_delivery data s).1.code ≠ 200 ∧ (start_delivery data s).2 = s) := by
  unfold start_delivery
  split
  · right; simp
  · split
    · left; simp_all
    · right; simp

/-- `speak_otp` either succeeds (200, spoken code, status flips to
completed, `otp` untouched) or rejects with 404 and no change. -/
theorem speak_otp_spec (s : DeliveryState) :
    (∃ o, s.status = .otp_ready ∧ s.otp = some o ∧
      speak_otp s = (⟨200, spokenFormat o⟩, { s with status := .completed })) ∨
    ((s.status ≠ .otp_ready ∨ s.otp = none) ∧
      speak_otp s =
        (⟨404, "OTP is not ready or has already been provided."⟩, s)) := by
  obtain ⟨st, otp, c⟩ := s
  cases st <;> cases otp <;> simp [speak_otp]

/-- `cancel_delivery` either succeeds (200, status to idle, flag set) or
rejects with 400 and no change. -/
theorem cancel_delivery_spec (s : DeliveryState) :
    (s.status = .waiting_for_otp ∧
      cancel_delivery s = (⟨200, "Delivery cancelled."⟩,
        { s with status := .idle, cancelled := true })) ∨
    (s.status ≠ .waiting_for_otp ∧
      cancel_delivery s = (⟨400, "No active delivery to cancel."⟩, s)) := by
  unfold cancel_delivery
  split <;> simp_all

/-- With both fields present and a live session, `start_delivery` rejects
with 409 and changes nothing. -/
theorem start_delivery_conflict (data : Option Body) (s : DeliveryState)
    (h : fieldsPresent data)
    (hl : s.status ≠ .idle ∧ s.status ≠ .completed) :
    start_delivery data s = (⟨409, "A delivery is already in progress."⟩, s) := by
  obtain ⟨h1, h2, h3, h4⟩ := h
  have hcond : ¬(data = none ∨ data = some [] ∨
      (data.getD []).lookup "company" = none ∨
      (data.getD []).lookup "info" = none) := by
    push_neg
    exact ⟨h1, h2, h3, h4⟩
  have hcond2 : ¬(s.status = .idle ∨ s.status = .completed) := by
    push_neg
    exact hl
  unfold start_delivery
  rw [if_neg hcond, if_neg hcond2]

/-! ## Inductive invariants of the reachable configurations -/

/-- In every reachable configuration the `otp` field is set exactly in
statuses `otp_ready` and `completed` (because `speak_otp` flips the status
without clearing `otp`). -/
theorem inv_otp (σ : Sys) (h : Reachable σ) :
    σ.st.otp ≠ none ↔
      (σ.st.status = .otp_ready ∨ σ.st.status = .completed) := by
  induction h with
  | init => simp [initSys, delivery_state]
  | step a τ hr hc ih =>
      cases a with
      | start data =>
          rcases start_delivery_spec data τ.st with ⟨h2, hs, _⟩ | ⟨h2, hs⟩ <;>
            simp [applyAct, h2, hs, ih]
      | check => simpa [applyAct, check_status] using ih
      | speak =>
          rcases speak_otp_spec τ.st with ⟨o, hst, ho, hs⟩ | ⟨_, hs⟩ <;>
            simp_all [applyAct]
      | cancel =>
          rcases cancel_delivery_spec τ.st with ⟨hst, hs⟩ | ⟨hst, hs⟩ <;>
            simp_all [applyAct]
      | fire v =>
          cases hp : τ.pending with
          | nil => simpa [applyAct, hp] using ih
          | cons g rest =>
              by_cases hcan : τ.st.cancelled <;>
                simp_all [applyAct, hp, simulate_homeowner_response]

/-- In every reachable configuration, a notifier thread still pending
while the status is `idle` implies the cancellation flag is set (the only
way back to `idle` with a live thread is `cancel_delivery`). -/
theorem inv_idle_pending (σ : Sys) (h : Reachable σ) :
    σ.st.status = .idle → σ.pending ≠ [] → σ.st.cancelled = true := by
  induction h with
  | init => simp [initSys, delivery_state]
  | step a τ hr hc ih =>
      cases a with
      | start data =>
          rcases start_delivery_spec data τ.st with ⟨h2, hs, _⟩ | ⟨h2, hs⟩ <;>
            simp_all [applyAct]
      | check => simpa [applyAct, check_status] using ih
      | speak =>
          rcases speak_otp_spec τ.st with ⟨o, hst, ho, hs⟩ | ⟨_, hs⟩ <;>
            simp_all [applyAct]
      | cancel =>
          rcases cancel_delivery_spec τ.st with ⟨hst, hs⟩ | ⟨hst, hs⟩ <;>
            simp_all [applyAct]
      | fire v =>
          cases hp : τ.pending with
          | nil => simp [applyAct, hp]
          | cons g rest =>
              by_cases hcan : τ.st.cancelled <;>
                simp_all [applyAct, hp, simulate_homeowner_response]

/-- Status polls and notifier wake-ups keep a session live: from
`waiting_for_otp` or `otp_ready`, any run of benign actions ends in
`waiting_for_otp` or `otp_ready`. -/
theorem benign_keeps_live (as : List Act) (σ : Sys)
    (hb : ∀ a ∈ as, benign a)
    (hst : σ.st.status = .waiting_for_otp ∨ σ.st.status = .otp_ready) :
    (runFrom σ as).st.status = .waiting_for_otp ∨
      (runFrom σ as).st.status = .otp_ready := by
  induction as generalizing σ with
  | nil => exact hst
  | cons a as ih =>
      have hba := hb a (by simp)
      have hrest : ∀ x ∈ as, benign x := fun x hx => hb x (by simp [hx])
      have hσ : ∀ τ : Sys, τ = (if canAct a σ then applyAct a σ else σ) →
          τ.st.status = .waiting_for_otp ∨ τ.st.status = .otp_ready := by
        intro τ hτ
        by_cases hc : canAct a σ
        · rw [if_pos hc] at hτ
          subst hτ
          cases a with
          | check => simpa [applyAct, check_status] using hst
          | fire v =>
              obtain ⟨hp, -, -⟩ := hc
              cases hpe : σ.pending with
              | nil => exact absurd hpe hp
              | cons g rest =>
                  by_cases hcan : σ.st.cancelled <;>
                    simp_all [applyAct, simulate_homeowner_response]
          | start data => exact absurd hba (by simp [benign])
          | speak => exact absurd hba (by simp [benign])
          | cancel => exact absurd hba (by simp [benign])
        · rw [if_neg hc] at hτ
          subst hτ
          exact hst
      have := ih ((if canAct a σ then applyAct a σ else σ)) hrest (hσ _ rfl)
      simpa [runFrom, List.foldl_cons] using this

/-! ## Claim C1 -/

/-- C1 as stated is false: in the reachable configuration after
`Start; fire 1234; Retrieve` (the value of that concrete trace) the
status is `completed` while `otp` is still `some "1234"`, so `otp` is
non-empty without `status = otp_ready`; moreover the successful
`speak_otp` that produced it did not clear the `otp` field. -/
theorem C1_counterexample :
    Reachable sysCompleted ∧
    sysCompleted.st.otp ≠ none ∧
    sysCompleted.st.status ≠ .otp_ready ∧
    (speak_otp sysReady.st).2.otp = some "1234" ∧
    (speak_otp sysReady.st).2.status = .completed := by
  refine ⟨reachable_sysCompleted, by decide, by decide, by decide, by decide⟩

/-- C1 amended: in every reachable configuration, `otp` is non-empty if
and only if `status ∈ {otp_ready, completed}` — a successful RetrieveOtp
(`speak_otp`) sets `status = completed` but leaves the `otp` field in
place, and every operation preserves this corrected invariant. -/
theorem C1_otp_invariant (σ : Sys) (h : Reachable σ) :
    (σ.st.otp ≠ none ↔
      (σ.st.status = .otp_ready ∨ σ.st.status = .completed)) ∧
    (∀ o, σ.st.status = .otp_ready → σ.st.otp = some o →
      (speak_otp σ.st).2.status = .completed ∧
      (speak_otp σ.st).2.otp = some o) := by
  refine ⟨inv_otp σ h, ?_⟩
  intro o hst ho
  rcases speak_otp_spec σ.st with ⟨o2, _, ho2, hs⟩ | ⟨hbad, _⟩
  · rw [ho] at ho2
    cases ho2
    simp [hs, ho]
  · rcases hbad with hbad | hbad
    · exact absurd hst hbad
    · rw [ho] at hbad
      cases hbad

theorem C1_otp_invariant_witness :
    (sysReady.st.otp ≠ none ↔
      (sysReady.st.status = .otp_ready ∨ sysReady.st.status = .completed)) ∧
    (∀ o, sysReady.st.status = .otp_ready → sysReady.st.otp = some o →
      (speak_otp sysReady.st).2.status = .completed ∧
      (speak_otp sysReady.st).2.otp = some o) :=
  C1_otp_invariant sysReady reachable_sysReady

/-! ## Claim C2 -/

/-- C2 as stated is false: `sysTwoPending` is the reachable configuration
after `Start; Cancel; Start` (session 1 started, cancelled, session 2
started before the first notifier's delay elapsed). Its oldest pending
notifier is generation 1's — the cancelled session's — while the current
session is generation 2, yet when it wakes it does change the state,
setting `status = otp_ready` and writing an otp into the later session. -/
theorem C2_counterexample :
    Reachable sysTwoPending ∧
    sysTwoPending.pending.head? = some 1 ∧
    sysTwoPending.gen = 2 ∧
    (applyAct (.fire 4321) sysTwoPending).st ≠ sysTwoPending.st ∧
    (applyAct (.fire 4321) sysTwoPending).st.status = .otp_ready ∧
    (applyAct (.fire 4321) sysTwoPending).st.otp = some "4321" := by
  refine ⟨reachable_sysTwoPending, by decide, by decide, by decide,
    by decide, by decide⟩

/-- C2 amended: a waking notifier consults only the global cancellation
flag of the moment, not a per-generation record. If the flag is still set
it makes no state change; if the flag is clear — in particular because a
later Start reset it — the notifier writes `status = otp_ready` and an
otp into whatever session is current, its own generation notwithstanding. -/
theorem C2_notifier_global_flag (σ : Sys) (v : Nat) (hp : σ.pending ≠ []) :
    (σ.st.cancelled = true → (applyAct (.fire v) σ).st = σ.st) ∧
    (σ.st.cancelled = false →
      (applyAct (.fire v) σ).st.status = .otp_ready ∧
      (applyAct (.fire v) σ).st.otp = some (toString v)) := by
  cases hpe : σ.pending with
  | nil => exact absurd hpe hp
  | cons g rest =>
      constructor
      · intro hcan
        simp [applyAct, hpe, simulate_homeowner_response, hcan]
      · intro hcan
        simp [applyAct, hpe, simulate_homeowner_response, hcan]

theorem C2_notifier_global_flag_witness :
    (sysTwoPending.st.cancelled = true →
      (applyAct (.fire 4321) sysTwoPending).st = sysTwoPending.st) ∧
    (sysTwoPending.st.cancelled = false →
      (applyAct (.fire 4321) sysTwoPending).st.status = .otp_ready ∧
      (applyAct (.fire 4321) sysTwoPending).st.otp = some "4321") :=
  C2_notifier_global_flag sysTwoPending 4321 (by decide)

/-! ## Claim C3 -/

/-- C3 as stated is false: `sysStale` is the reachable configuration
after `Start; Cancel; Start; fire 1234; Retrieve`; its status is
`completed`, and generation 2's still-pending notifier may now fire,
moving the status to `otp_ready` — a transition completed → otp_ready
that is not among the spec's edges. -/
theorem C3_counterexample :
    Reachable sysStale ∧
    canAct (.fire 5678) sysStale ∧
    sysStale.st.status = .completed ∧
    (applyAct (.fire 5678) sysStale).st.status = .otp_ready ∧
    (Status.completed, Status.otp_ready) ∉ specEdges ∧
    Status.completed ≠ Status.otp_ready := by
  refine ⟨reachable_sysStale, by decide, by decide, by decide,
    by decide, by decide⟩

/-- C3 amended: every step from a reachable configuration either leaves
the status unchanged or follows an edge of the spec's state machine
extended with the stale-notifier edge completed → otp_ready (a notifier
spawned by an earlier Start, left unsuppressed because a later Start
cleared the cancellation flag, may fire after the session completed). In
particular nothing but Retrieve ever leaves `otp_ready`. -/
theorem C3_transitions (σ : Sys) (a : Act) (h : Reachable σ)
    (hc : canAct a σ) :
    (applyAct a σ).st.status = σ.st.status ∨
      (σ.st.status, (applyAct a σ).st.status) ∈ codeEdges := by
  cases a with
  | start data =>
      rcases start_delivery_spec data σ.st with ⟨h2, hs, hpre⟩ | ⟨h2, hs⟩
      · right
        rcases hpre with hpre | hpre <;>
          simp [applyAct, h2, hs, hpre, codeEdges, specEdges]
      · left
        simp [applyAct, hs, h2]
  | check => left; simp [applyAct, check_status]
  | speak =>
      rcases speak_otp_spec σ.st with ⟨o, hst, ho, hs⟩ | ⟨_, hs⟩
      · right
        simp [applyAct, hs, hst, codeEdges, specEdges]
      · left
        simp [applyAct, hs]
  | cancel =>
      rcases cancel_delivery_spec σ.st with ⟨hst, hs⟩ | ⟨hst, hs⟩
      · right
        simp [applyAct, hs, hst, codeEdges, specEdges]
      · left
        simp [applyAct, hs]
  | fire v =>
      obtain ⟨hp, -, -⟩ := hc
      cases hpe : σ.pending with
      | nil => exact absurd hpe hp
      | cons g rest =>
          by_cases hcan : σ.st.cancelled
          · left
            simp [applyAct, hpe, simulate_homeowner_response, hcan]
          · have hidle : σ.st.status ≠ .idle := by
              intro hi
              have := inv_idle_pending σ h hi hp
              simp [this] at hcan
            cases hst : σ.st.status with
            | idle => exact absurd hst hidle
            | waiting_for_otp =>
                right
                simp [applyAct, hpe, simulate_homeowner_response, hcan, hst,
                  codeEdges, specEdges]
            | otp_ready =>
                left
                simp [applyAct, hpe, simulate_homeowner_response, hcan, hst]
            | completed =>
                right
                simp [applyAct, hpe, simulate_homeowner_response, hcan, hst,
                  codeEdges, specEdges]

theorem C3_transitions_witness :
    (applyAct (.fire 5678) sysStale).st.status = sysStale.st.status ∨
      (sysStale.st.status, (applyAct (.fire 5678) sysStale).st.status) ∈
        codeEdges :=
  C3_transitions sysStale (.fire 5678) reachable_sysStale (by decide)

/-! ## Claim C4 -/

/-- C4 as stated is false: the session record is accessed without any
lock, and the notifier body is two separate atomic statements — the
cancellation check and the write. From the reachable waiting
configuration, the interleaving check / Cancel / write has the notifier
pass its check, the cancel be accepted (status idle, flag set, 200
returned), and the write then still apply, leaving `otp_ready`: the
operation that lost the race was applied, not dropped, so the effects are
not linearizable and the operations are not one atomic unit. -/
theorem C4_counterexample :
    Reachable sysWaiting ∧
    notifierCheck sysWaiting.st = false ∧
    cancel_delivery sysWaiting.st =
      (⟨200, "Delivery cancelled."⟩,
       { status := .idle, otp := none, cancelled := true }) ∧
    notifierWrite 4321 { status := .idle, otp := none, cancelled := true } =
      { status := .otp_ready, otp := some "4321", cancelled := true } ∧
    ({ status := .otp_ready, otp := some "4321", cancelled := true } :
      DeliveryState).status ≠ .idle ∧
    simulate_homeowner_response 4321 sysWaiting.st =
      (if notifierCheck sysWaiting.st then sysWaiting.st
       else notifierWrite 4321 sysWaiting.st) := by
  refine ⟨reachable_sysWaiting, by decide, by decide, by decide,
    by decide, by decide⟩

/-- C4 amended: the store operations are plain unsynchronized accesses to
the shared record; the notifier's post-sleep cancellation check and its
otp_ready write execute as separate steps, so whenever a session is
waiting and uncancelled, a `cancel_delivery` interleaved between the
check and the write is accepted (200, status idle, flag set) and is then
overwritten by the write, which ends the record in `otp_ready` — the
race's loser is applied rather than dropped. -/
theorem C4_no_mutual_exclusion (s : DeliveryState) (v : Nat)
    (h1 : s.status = .waiting_for_otp) (h2 : s.cancelled = false) :
    notifierCheck s = false ∧
    (cancel_delivery s).1.code = 200 ∧
    (cancel_delivery s).2.status = .idle ∧
    (cancel_delivery s).2.cancelled = true ∧
    (notifierWrite v (cancel_delivery s).2).status = .otp_ready ∧
    (notifierWrite v (cancel_delivery s).2).otp = some (toString v) := by
  rcases cancel_delivery_spec s with ⟨hst, hs⟩ | ⟨hst, hs⟩
  · simp [notifierCheck, h2, hs, notifierWrite]
  · exact absurd h1 hst

theorem C4_no_mutual_exclusion_witness :
    notifierCheck sysWaiting.st = false ∧
    (cancel_delivery sysWaiting.st).1.code = 200 ∧
    (cancel_delivery sysWaiting.st).2.status = .idle ∧
    (cancel_delivery sysWaiting.st).2.cancelled = true ∧
    (notifierWrite 4321 (cancel_delivery sysWaiting.st).2).status =
      .otp_ready ∧
    (notifierWrite 4321 (cancel_delivery sysWaiting.st).2).otp =
      some "4321" :=
  C4_no_mutual_exclusion sysWaiting.st 4321 (by decide) (by decide)

/-! ## Claim C5 -/

/-- C5 as stated is false: a request whose `company` and `info` fields
are both present but empty is not rejected with 400 — from the idle
record, `start_delivery` accepts it with 200 and resets the session. -/
theorem C5_counterexample :
    (start_delivery (some [("company", ""), ("info", "")])
        delivery_state).1.code = 200 ∧
    (start_delivery (some [("company", ""), ("info", "")])
        delivery_state).1.code ≠ 400 ∧
    (start_delivery (some [("company", ""), ("info", "")])
        delivery_state).2 ≠ delivery_state := by
  refine ⟨by decide, by decide, by decide⟩

/-- C5 amended: StartDelivery validates only that the body is non-falsy
and that both keys are present — empty string values are accepted. For
every request missing the body or either key it returns 400 and leaves
the state unchanged; for every request with both keys present while a
session is live (status not idle and not completed) it returns 409 and
leaves the state unchanged. -/
theorem C5_validation (data : Option Body) (s : DeliveryState) :
    ((data = none ∨ data = some [] ∨
        (data.getD []).lookup "company" = none ∨
        (data.getD []).lookup "info" = none) →
      start_delivery data s = (⟨400, "Missing company or info."⟩, s)) ∧
    (fieldsPresent data → s.status ≠ .idle → s.status ≠ .completed →
      start_delivery data s =
        (⟨409, "A delivery is already in progress."⟩, s)) := by
  constructor
  · intro hmiss
    unfold start_delivery
    rw [if_pos hmiss]
  · intro hf h1 h2
    exact start_delivery_conflict data s hf ⟨h1, h2⟩

theorem C5_validation_witness :
    start_delivery none delivery_state =
      (⟨400, "Missing company or info."⟩, delivery_state) ∧
    start_delivery okBody sysWaiting.st =
      (⟨409, "A delivery is already in progress."⟩, sysWaiting.st) :=
  ⟨(C5_validation none delivery_state).1 (Or.inl rfl),
   (C5_validation okBody sysWaiting.st).2 (by decide) (by decide) (by decide)⟩

/-! ## Claim C6 -/

/-- C6: with both fields present, Start succeeds exactly on status idle
or completed, and on success resets the record to waiting_for_otp with
`otp` cleared and the cancellation flag cleared; a second Start with no
intervening Cancel or Retrieve — any number of status polls and notifier
wake-ups in between — is rejected with 409, so the two calls yield
exactly one acceptance and one conflict in either order. -/
theorem C6_start_exclusivity (s : DeliveryState) (data data2 : Option Body)
    (p : List Nat) (g : Nat) (as : List Act)
    (h1 : fieldsPresent data) (h2 : fieldsPresent data2)
    (hs : s.status = .idle ∨ s.status = .completed)
    (hb : ∀ a ∈ as, benign a) :
    ((start_delivery data s).1.code = 200 ∧
      (start_delivery data s).2 =
        { status := .waiting_for_otp, otp := none, cancelled := false }) ∧
    (∀ s2 : DeliveryState, s2.status ≠ .idle → s2.status ≠ .completed →
      (start_delivery data2 s2).1.code = 409) ∧
    ((start_delivery data2
        (runFrom ⟨(start_delivery data s).2, p, g⟩ as).st).1.code = 409 ∧
      (start_delivery data2
        (runFrom ⟨(start_delivery data s).2, p, g⟩ as).st).2 =
        (runFrom ⟨(start_delivery data s).2, p, g⟩ as).st) := by
  have hacc : (start_delivery data s).1.code = 200 ∧
      (start_delivery data s).2 =
        { status := .waiting_for_otp, otp := none, cancelled := false } := by
    rcases start_delivery_spec data s with ⟨ha, hb2, _⟩ | ⟨ha, hb2⟩
    · exact ⟨ha, hb2⟩
    · exfalso
      obtain ⟨f1, f2, f3, f4⟩ := h1
      revert ha
      unfold start_delivery
      rw [if_neg (by push_neg; exact ⟨f1, f2, f3, f4⟩), if_pos hs]
      simp
  refine ⟨hacc, ?_, ?_⟩
  · intro s2 hi hc
    rw [start_delivery_conflict data2 s2 h2 ⟨hi, hc⟩]
  · have hlive := benign_keeps_live as
      ⟨(start_delivery data s).2, p, g⟩ hb
      (by rw [hacc.2]; left; rfl)
    have hneq : (runFrom ⟨(start_delivery data s).2, p, g⟩ as).st.status ≠
        .idle ∧
        (runFrom ⟨(start_delivery data s).2, p, g⟩ as).st.status ≠
          .completed := by
      rcases hlive with hl | hl <;> rw [hl] <;> exact ⟨by simp, by simp⟩
    rw [start_delivery_conflict data2 _ h2 hneq]
    exact ⟨rfl, rfl⟩

theorem C6_start_exclusivity_witness :
    ((start_delivery okBody delivery_state).1.code = 200 ∧
      (start_delivery okBody delivery_state).2 =
        { status := .waiting_for_otp, otp := none, cancelled := false }) ∧
    (∀ s2 : DeliveryState, s2.status ≠ .idle → s2.status ≠ .completed →
      (start_delivery okBody s2).1.code = 409) ∧
    ((start_delivery okBody
        (runFrom ⟨(start_delivery okBody delivery_state).2, [1], 1⟩
          [.fire 1234, .check]).st).1.code = 409 ∧
      (start_delivery okBody
        (runFrom ⟨(start_delivery okBody delivery_state).2, [1], 1⟩
          [.fire 1234, .check]).st).2 =
        (runFrom ⟨(start_delivery okBody delivery_state).2, [1], 1⟩
          [.fire 1234, .check]).st) :=
  C6_start_exclusivity delivery_state okBody okBody [1] 1 [.fire 1234, .check]
    (by decide) (by decide) (Or.inl rfl) (by decide)

/-! ## Claim C7 -/

/-- C7 as stated is false: from the reachable configuration
`sysStaleReady` (reached by `Start; Cancel; Start; fire 1234`), a
Retrieve succeeds with 200; then — with no new Start, only generation 2's
leftover notifier firing — a second Retrieve succeeds with 200 again, so
the not-found guarantee "until a new Start occurs" does not hold. -/
theorem C7_counterexample :
    Reachable sysStaleReady ∧
    (speak_otp sysStaleReady.st).1.code = 200 ∧
    applyAct .speak sysStaleReady = sysStale ∧
    (speak_otp sysStale.st).1.code = 404 ∧
    applyAct (.fire 5678) sysStale =
      ⟨⟨.otp_ready, some "5678", false⟩, [], 2⟩ ∧
    (speak_otp ⟨.otp_ready, some "5678", false⟩).1.code = 200 := by
  refine ⟨reachable_sysStaleReady, by decide, by decide, by decide,
    by decide, by decide⟩

/-- C7 amended: the first `speak_otp` while the OTP is ready returns the
stored code (spoken) and sets status to completed; every later call finds
status ≠ otp_ready and returns 404 without change; and from `completed`
the only step that can make the status `otp_ready` again — re-arming
Retrieve — is a notifier wake-up (after a new Start, or a stale notifier
left over from an earlier one), never Start, CheckStatus, Retrieve or
Cancel themselves. -/
theorem C7_retrieve_once (σ : Sys) (o : String)
    (h1 : σ.st.status = .otp_ready) (h2 : σ.st.otp = some o) :
    (speak_otp σ.st).1 = ⟨200, spokenFormat o⟩ ∧
    (speak_otp σ.st).2.status = .completed ∧
    (∀ s2 : DeliveryState, s2.status ≠ .otp_ready →
      speak_otp s2 = (⟨404, "OTP is not ready or has already been provided."⟩,
        s2)) ∧
    (∀ (τ : Sys) (a : Act), canAct a τ → τ.st.status = .completed →
      (applyAct a τ).st.status = .otp_ready → ∃ v, a = .fire v) := by
  refine ⟨?_, ?_, ?_, ?_⟩
  · rcases speak_otp_spec σ.st with ⟨o2, _, ho2, hs⟩ | ⟨hbad, _⟩
    · rw [h2] at ho2
      cases ho2
      rw [hs]
    · rcases hbad with hbad | hbad
      · exact absurd h1 hbad
      · rw [h2] at hbad
        cases hbad
  · rcases speak_otp_spec σ.st with ⟨o2, _, ho2, hs⟩ | ⟨hbad, _⟩
    · simp [hs]
    · rcases hbad with hbad | hbad
      · exact absurd h1 hbad
      · rw [h2] at hbad
        cases hbad
  · intro s2 hns
    rcases speak_otp_spec s2 with ⟨o2, hst, _, _⟩ | ⟨_, hs⟩
    · exact absurd hst hns
    · exact hs
  · intro τ a hca hcomp hotp
    cases a with
    | fire v => exact ⟨v, rfl⟩
    | start data =>
        exfalso
        rcases start_delivery_spec data τ.st with ⟨ha, hb2, _⟩ | ⟨ha, hb2⟩ <;>
          simp_all [applyAct]
    | check =>
        exfalso
        simp_all [applyAct, check_status]
    | speak =>
        exfalso
        rcases speak_otp_spec τ.st with ⟨o2, hst, _, _⟩ | ⟨_, hs⟩ <;>
          simp_all [applyAct]
    | cancel =>
        exfalso
        rcases cancel_delivery_spec τ.st with ⟨hst, _⟩ | ⟨_, hs⟩ <;>
          simp_all [applyAct]

theorem C7_retrieve_once_witness :
    (speak_otp sysReady.st).1 = ⟨200, spokenFormat "1234"⟩ ∧
    (speak_otp sysReady.st).2.status = .completed ∧
    (∀ s2 : DeliveryState, s2.status ≠ .otp_ready →
      speak_otp s2 = (⟨404, "OTP is not ready or has already been provided."⟩,
        s2)) ∧
    (∀ (τ : Sys) (a : Act), canAct a τ → τ.st.status = .completed →
      (applyAct a τ).st.status = .otp_ready → ∃ v, a = .fire v) :=
  C7_retrieve_once sysReady "1234" (by decide) (by decide)

/-! ## Claim C8 -/

/-- C8: whenever an OTP is ready, `speak_otp` returns 200 with each digit
of the stored code in order separated by the pause marker and a trailing
pause marker (`spokenSpec`), and flips the status to completed; the
concrete code "1234" renders as exactly "1... 2... 3... 4...". -/
theorem C8_spoken_format (s : DeliveryState) (code : String)
    (h1 : s.status = .otp_ready) (h2 : s.otp = some code) :
    speak_otp s =
      (⟨200, spokenSpec code.toList⟩, { s with status := .completed }) ∧
    spokenSpec "1234".toList = "1... 2... 3... 4..." := by
  constructor
  · rcases speak_otp_spec s with ⟨o2, _, ho2, hs⟩ | ⟨hbad, _⟩
    · rw [h2] at ho2
      cases ho2
      rw [hs]
      obtain ⟨l⟩ := code
      rw [spokenFormat_eq_spokenSpec]
      rfl
    · rcases hbad with hbad | hbad
      · exact absurd h1 hbad
      · rw [h2] at hbad
        cases hbad
  · decide

theorem C8_spoken_format_witness :
    speak_otp sysReady.st =
      (⟨200, spokenSpec ("1234" : String).toList⟩,
       { sysReady.st with status := .completed }) ∧
    spokenSpec ("1234" : String).toList = "1... 2... 3... 4..." :=
  C8_spoken_format sysReady.st "1234" (by decide) (by decide)

/-! ## Claim C9 -/

/-- C9: every `understand_speech` call returns the session record exactly
as it received it — whichever branch is taken (500 for a missing key, 400
for a missing body or raw_text, 500 for an AI failure or unparseable AI
output, 200 on success) — and its status code is always one of 200, 400
and 500. -/
theorem C9_extraction_frame (apiKey : Option String) (data : Option Body)
    (aiResponse : Except String String) (jsonValid : String → Bool)
    (s : DeliveryState) :
    (understand_speech apiKey data aiResponse jsonValid s).2 = s ∧
    ((understand_speech apiKey data aiResponse jsonValid s).1.code = 200 ∨
     (understand_speech apiKey data aiResponse jsonValid s).1.code = 400 ∨
     (understand_speech apiKey data aiResponse jsonValid s).1.code = 500) := by
  unfold understand_speech
  split
  · simp
  · split
    · simp
    · match aiResponse with
      | .error e => simp
      | .ok text =>
          simp only []
          split <;> simp

/-! ## Claim C10 -/

/-- C10: `speak_otp`'s success branch requires both `status = otp_ready`
and a present `otp`; in any state with `status = otp_ready` but `otp`
absent it returns 404 and changes nothing, so the handler never reads an
absent OTP value. -/
theorem C10_guard_absent_otp (s : DeliveryState)
    (h1 : s.status = .otp_ready) (h2 : s.otp = none) :
    speak_otp s =
      (⟨404, "OTP is not ready or has already been provided."⟩, s) := by
  obtain ⟨st, otp, c⟩ := s
  simp only at h1 h2
  subst h1
  subst h2
  simp [speak_otp]

theorem C10_guard_absent_otp_witness :
    speak_otp { status := .otp_ready, otp := none, cancelled := false } =
      (⟨404, "OTP is not ready or has already been provided."⟩,
       { status := .otp_ready, otp := none, cancelled := false }) :=
  C10_guard_absent_otp
    { status := .otp_ready, otp := none, cancelled := false } rfl rfl

end Bot2Door
